import Mathlib

/-!
Verification of the request/response normalization layer in
`src/web/src/app/api/client/requests.ts`.

The embedding models JavaScript runtime values with `JsVal` (numbers are
restricted to integers, which covers every numeric value the code under
verification produces or consumes in the claims), and models the relevant
JavaScript primitives (truthiness, property access, optional chaining,
`String(..)` coercion, `String.prototype.includes`, `Array.prototype.includes`,
`JSON.parse`) as executable Lean functions.  A JavaScript exception that
escapes a function is modelled by `Option`/`Except` failure.
-/

/-- A JavaScript runtime value.  `undefined` is `undefined`; `obj` carries the
own enumerable properties in insertion order (keys unique by construction
in actual JS objects; lookup takes the first occurrence). -/
inductive JsVal where
  | undefined : JsVal
  | null : JsVal
  | bool : Bool → JsVal
  | num : Int → JsVal
  | str : String → JsVal
  | arr : List JsVal → JsVal
  | obj : List (String × JsVal) → JsVal

/-- JavaScript truthiness (`!!v`). -/
def truthy : JsVal → Bool
  | .undefined => false
  | .null => false
  | .bool b => b
  | .num n => !(n == 0)
  | .str s => !(s == "")
  | .arr _ => true
  | .obj _ => true

/-- `typeof v === "string"`. -/
def isStr : JsVal → Bool
  | .str _ => true
  | _ => false

/-- `Array.isArray(v)` (used only to state theorems; the source never calls it). -/
def isArr : JsVal → Bool
  | .arr _ => true
  | _ => false

/-- `typeof v === "object"` (true for `null`, plain objects and arrays). -/
def isObjTypeof : JsVal → Bool
  | .null => true
  | .obj _ => true
  | .arr _ => true
  | _ => false

/-- JavaScript property read `v[k]`.  `none` models the TypeError thrown on
`null`/`undefined`; on primitives the read yields `undefined`; strings and
arrays expose `length` and index `0` (the only keys the source reads). -/
def getProp : JsVal → String → Option JsVal
  | .undefined, _ => none
  | .null, _ => none
  | .bool _, _ => some .undefined
  | .num _, _ => some .undefined
  | .str s, k =>
      if k = "length" then some (.num s.length)
      else if k = "0" then some (if s = "" then .undefined else .str (s.take 1))
      else some .undefined
  | .arr xs, k =>
      if k = "length" then some (.num xs.length)
      else if k = "0" then some ((xs.head?).getD .undefined)
      else some .undefined
  | .obj fs, k => some (((fs.lookup k)).getD .undefined)

/-- Property read on a value known not to be `null`/`undefined` (every use in
the embedding is guarded by a truthiness check, mirroring the source). -/
def forceProp (v : JsVal) (k : String) : JsVal := (getProp v k).getD .undefined

/-- Optional chaining `v?.k`. -/
def optGet (v : JsVal) (k : String) : JsVal :=
  match v with
  | .undefined => .undefined
  | .null => .undefined
  | v => forceProp v k

/-- The `in` operator restricted to the shapes `handleResponse` can reach:
key presence on plain objects; arrays only expose `length` among the keys the
source ever tests. -/
def hasProp : JsVal → String → Bool
  | .obj fs, k => ((fs.lookup k)).isSome
  | .arr _, k => k = "length"
  | _, _ => false

/-- `pat` is a prefix of `s` (character lists). -/
def listIsPre : List Char → List Char → Bool
  | [], _ => true
  | _ :: _, [] => false
  | a :: as2, b :: bs => a == b && listIsPre as2 bs

/-- `pat` occurs as a contiguous substring of `s` (character lists). -/
def listHasSub (pat s : List Char) : Bool :=
  match s with
  | [] => listIsPre pat []
  | _ :: rest => listIsPre pat s || listHasSub pat rest

/-- `s.includes(pat)` for strings. -/
def strIncludes (s pat : String) : Bool := listHasSub pat.data s.data

mutual

/-- JavaScript `String(v)` coercion for the values the classifier can feed to
string concatenation or `JSON.parse` (via `Array.prototype.toString`). -/
def jsToString : JsVal → String
  | .undefined => "undefined"
  | .null => "null"
  | .bool b => if b then "true" else "false"
  | .num n => toString n
  | .str s => s
  | .obj _ => "[object Object]"
  | .arr xs => arrJoin xs

/-- `Array.prototype.join(",")`: elements separated by commas, `null` and
`undefined` rendered as the empty string. -/
def arrJoin : List JsVal → String
  | [] => ""
  | [x] => elemStr x
  | x :: y :: rest => elemStr x ++ "," ++ arrJoin (y :: rest)

/-- One array element under `join`. -/
def elemStr : JsVal → String
  | .null => ""
  | .undefined => ""
  | v => jsToString v

end

/-- Numeric value of a digit list, `none` when empty or containing a
non-digit. -/
def digitsToNat : List Char → Option Nat
  | [] => none
  | cs => go cs 0
where
  go : List Char → Nat → Option Nat
  | [], acc => some acc
  | c :: rest, acc =>
      if c.isDigit then go rest (acc * 10 + (c.toNat - 48)) else none

/-- JavaScript `Number(s)` for a string, restricted to integer numerals:
whitespace-trimmed empty string is `0`, optionally signed digit strings are
their value, anything else is NaN (`none`). -/
def strToNumQ (s : String) : Option Int :=
  match (s.trim).data with
  | [] => some 0
  | '-' :: rest => (digitsToNat rest).map (fun n => -(n : Int))
  | '+' :: rest => (digitsToNat rest).map (fun n => (n : Int))
  | cs => (digitsToNat cs).map (fun n => (n : Int))

/-- JavaScript `ToNumber(v)`, `none` for NaN.  Arrays coerce through their
string form; plain objects coerce to `"[object Object]"`, which is NaN. -/
def toNumQ : JsVal → Option Int
  | .num n => some n
  | .bool b => some (if b then 1 else 0)
  | .null => some 0
  | .undefined => none
  | .str s => strToNumQ s
  | .arr xs => strToNumQ (arrJoin xs)
  | .obj _ => none

/-- The JavaScript comparison `v > 0` (NaN compares false). -/
def jsGtZero (v : JsVal) : Bool :=
  match toNumQ v with
  | some n => decide (0 < n)
  | none => false

/-- JSON whitespace skip. -/
def skipWs : List Char → List Char
  | c :: cs => if c == ' ' || c == '\t' || c == '\n' || c == '\r' then skipWs cs else c :: cs
  | [] => []

/-- JSON string escape sequences (`\uXXXX` is outside the model; inputs using
it count as parse failures). -/
def escChar : Char → Option Char
  | '"' => some '"'
  | '\\' => some '\\'
  | '/' => some '/'
  | 'b' => some (Char.ofNat 8)
  | 'f' => some (Char.ofNat 12)
  | 'n' => some '\n'
  | 'r' => some '\r'
  | 't' => some '\t'
  | _ => none

/-- Body of a JSON string after the opening quote: returns the decoded
characters and the remainder after the closing quote. -/
def parseStrChars : List Char → Option (List Char × List Char)
  | [] => none
  | '"' :: rest => some ([], rest)
  | '\\' :: [] => none
  | '\\' :: e :: rest =>
      match escChar e with
      | some c => (parseStrChars rest).map (fun p => (c :: p.1, p.2))
      | none => none
  | c :: rest =>
      if c.toNat ≥ 32 then (parseStrChars rest).map (fun p => (c :: p.1, p.2))
      else none

/-- Longest leading run of decimal digits. -/
def takeDigits : List Char → (List Char × List Char)
  | c :: rest =>
      if c.isDigit then
        let p := takeDigits rest
        (c :: p.1, p.2)
      else ([], c :: rest)
  | [] => ([], [])

/-- Numeric value of a digit run. -/
def digitsNat (cs : List Char) : Nat :=
  cs.foldl (fun acc c => acc * 10 + (c.toNat - 48)) 0

/-- Unsigned JSON integer numeral: `0` or a nonzero-leading digit run; a
following `.`/`e`/`E` (a float, outside the integer-valued model) or a
leading zero makes it a parse failure. -/
def parseUNumber : List Char → Option (Nat × List Char)
  | '0' :: rest =>
      match rest with
      | c :: _ => if c.isDigit || c == '.' || c == 'e' || c == 'E' then none else some (0, rest)
      | [] => some (0, [])
  | c :: rest =>
      if c.isDigit then
        let p := takeDigits (c :: rest)
        match p.2 with
        | d :: _ => if d == '.' || d == 'e' || d == 'E' then none else some (digitsNat p.1, p.2)
        | [] => some (digitsNat p.1, [])
      else none
  | [] => none

/-- Signed JSON integer numeral. -/
def parseNumber : List Char → Option (Int × List Char)
  | '-' :: rest => (parseUNumber rest).map (fun p => (-(p.1 : Int), p.2))
  | cs => (parseUNumber cs).map (fun p => ((p.1 : Int), p.2))

/-- Object-property insertion: a repeated key keeps its first position and the
later value, as `JSON.parse` does. -/
def objInsert (fs : List (String × JsVal)) (k : String) (v : JsVal) : List (String × JsVal) :=
  if ((fs.lookup k)).isSome then fs.map (fun p => if p.1 == k then (k, v) else p)
  else fs ++ [(k, v)]

mutual

/-- One JSON value (fuel-indexed recursive-descent; the fuel chosen by
`jsonParse` is ample for its input). -/
def parseVal : Nat → List Char → Option (JsVal × List Char)
  | 0, _ => none
  | Nat.succ fuel, cs =>
      match skipWs cs with
      | 'n' :: 'u' :: 'l' :: 'l' :: rest => some (.null, rest)
      | 't' :: 'r' :: 'u' :: 'e' :: rest => some (.bool true, rest)
      | 'f' :: 'a' :: 'l' :: 's' :: 'e' :: rest => some (.bool false, rest)
      | '"' :: rest => (parseStrChars rest).map (fun p => (.str (String.mk p.1), p.2))
      | '[' :: rest =>
          match skipWs rest with
          | ']' :: rest2 => some (.arr [], rest2)
          | cs2 => (parseItems fuel cs2).map (fun p => (.arr p.1, p.2))
      | '\x7b' :: rest =>
          match skipWs rest with
          | '\x7d' :: rest2 => some (.obj [], rest2)
          | cs2 => (parseMembers fuel [] cs2).map (fun p => (.obj p.1, p.2))
      | cs2 => (parseNumber cs2).map (fun p => (.num p.1, p.2))

/-- Comma-separated JSON array items up to the closing bracket. -/
def parseItems : Nat → List Char → Option (List JsVal × List Char)
  | 0, _ => none
  | Nat.succ fuel, cs =>
      match parseVal fuel cs with
      | none => none
      | some (v, rest) =>
          match skipWs rest with
          | ',' :: rest2 => (parseItems fuel rest2).map (fun p => (v :: p.1, p.2))
          | ']' :: rest2 => some ([v], rest2)
          | _ => none

/-- Comma-separated JSON object members up to the closing brace. -/
def parseMembers : Nat → List (String × JsVal) → List Char →
    Option (List (String × JsVal) × List Char)
  | 0, _, _ => none
  | Nat.succ fuel, acc, cs =>
      match skipWs cs with
      | '"' :: rest =>
          match parseStrChars rest with
          | none => none
          | some (kcs, rest2) =>
              match skipWs rest2 with
              | ':' :: rest3 =>
                  match parseVal fuel rest3 with
                  | none => none
                  | some (v, rest4) =>
                      match skipWs rest4 with
                      | ',' :: rest5 => parseMembers fuel (objInsert acc (String.mk kcs) v) rest5
                      | '\x7d' :: rest5 => some (objInsert acc (String.mk kcs) v, rest5)
                      | _ => none
              | _ => none
      | _ => none

end

/-- `JSON.parse` on a string: one JSON value followed only by whitespace;
`none` models a thrown `SyntaxError`. -/
def jsonParse (s : String) : Option JsVal :=
  match parseVal (2 * s.length + 4) s.data with
  | some (v, rest) => if (skipWs rest).isEmpty then some v else none
  | none => none

/-- The fixed rate-limit message of the classifier. -/
def tooManyRequestsMsg : String :=
  "Anilist: Too many requests, please wait a moment and try again"

/-- `err.includes("Too many requests")`: substring test when `err` is a
string, `===`-membership test when it is an array; any other receiver has no
`includes` method, so the call throws (`none`). -/
def errIncludesTooMany : JsVal → Option Bool
  | .str s => some (strIncludes s "Too many requests")
  | .arr xs =>
      some (xs.any (fun v =>
        match v with
        | .str u => u == "Too many requests"
        | _ => false))
  | _ => none

/-- Guard and message extraction of the structured upstream-error branch:
`graphqlErr.graphqlErrors && graphqlErr.graphqlErrors.length > 0 &&
!!graphqlErr.graphqlErrors[0]?.message`, yielding the message when the guard
passes.  `g` is a non-null `JSON.parse` result, so the property reads cannot
throw. -/
def gqlMessage (g : JsVal) : Option JsVal :=
  let ge := forceProp g "graphqlErrors"
  if truthy ge && jsGtZero (forceProp ge "length") && truthy (optGet (forceProp ge "0") "message")
  then some (optGet (forceProp ge "0") "message")
  else none

/-- `handleError` (source lines 128-155).  `none` is a thrown TypeError: it
occurs exactly when a truthy `error` field is neither a string nor an array,
so that `err.includes(..)` is a call on `undefined`.  `JSON.parse(err)`
coerces its argument to a string first; when the parse yields `null` (or,
vacuously, `undefined`) the `graphqlErr.graphqlErrors` read throws inside the
`try` and lands in the `catch`, producing `"Error: " + err`. -/
def handleError (data : JsVal) : Option String :=
  match data with
  | .str s => some ("Server Error" ++ s)
  | d =>
      let err := optGet d "error"
      if truthy err = false then some "Unknown error"
      else
        match errIncludesTooMany err with
        | none => none
        | some true => some tooManyRequestsMsg
        | some false =>
            match jsonParse (jsToString err) with
            | none => some ("Error: " ++ jsToString err)
            | some JsVal.null => some ("Error: " ++ jsToString err)
            | some JsVal.undefined => some ("Error: " ++ jsToString err)
            | some g =>
                match gqlMessage g with
                | some m => some ("Anilist error: " ++ jsToString m)
                | none => some "Anilist error"

/-- Result shape of `handleResponse`: `{ data: T | undefined;
error: string | undefined }`. -/
structure Decoded where
  data : JsVal
  error : Option String

/-- The string carried by a `JsVal` known to be a string. -/
def strOf : JsVal → String
  | .str s => s
  | _ => ""

/-- `handleResponse` (source lines 157-173). -/
def handleResponse (res : JsVal) : Decoded :=
  if isObjTypeof res && truthy res && hasProp res "error" && isStr (forceProp res "error") then
    ⟨.undefined, some (strOf (forceProp res "error"))⟩
  else if isObjTypeof res && truthy res && hasProp res "data" then
    ⟨forceProp res "data", none⟩
  else
    ⟨.undefined, some "No response from the server"⟩

/-- The Envelope Decoder contract as §4.1 of the spec words it: a non-null
object with a string-valued `error` field is a failure carrying that string;
otherwise a non-null object containing a `data` field is a success carrying
that value; any other body is a failure with the fixed payload. -/
def specDecode : JsVal → Decoded
  | .obj fs =>
      match fs.lookup "error" with
      | some (.str s) => ⟨.undefined, some s⟩
      | _ =>
          match fs.lookup "data" with
          | some v => ⟨v, none⟩
          | none => ⟨.undefined, some "No response from the server"⟩
  | _ => ⟨.undefined, some "No response from the server"⟩

/-- `buildQuery` (source lines 51-66) after the transport step: a transport
failure (axios rejection) propagates unchanged; on transport success the body
is decoded by `handleResponse` and the `data` component is returned.  After a
successful transport the function always returns normally. -/
def buildQuery (transport : Except JsVal JsVal) : Except JsVal JsVal :=
  match transport with
  | .error e => .error e
  | .ok body => .ok (handleResponse body).data

/-- `v === null` (used only to state theorems). -/
def isNull : JsVal → Bool
  | .null => true
  | _ => false

/-- `v === undefined` (used only to state theorems). -/
def isUndefined : JsVal → Bool
  | .undefined => true
  | _ => false

/-- The shape of the axios error a wrapper receives on a transport failure:
`request` is the underlying request object (an `XMLHttpRequest`, which
carries no `data` property), `response` is the axios response object, whose
`data` property holds the decoded response body. -/
structure AxiosErrorModel where
  request : JsVal
  response : JsVal

/-- The Mutation Wrapper's default `onError` (source lines 80-82): it
classifies `error.request?.data` and forwards the resulting string to the
notifier.  The returned list is the sequence of notifier invocations — empty
when the classifier throws, since `toast.error` is then never reached. -/
def mutationDefaultOnError (e : AxiosErrorModel) : List String :=
  (handleError (optGet e.request "data")).toList

/-- Object spread of two option objects, `...defaults` then `...opts`, as a
right-biased merge of string-keyed partial maps. -/
def spreadMerge {α : Type} (defaults opts : String → Option α) : String → Option α :=
  fun k =>
    match opts k with
    | some v => some v
    | none => defaults k

/-- The system-supplied slots of the `useMutation` argument object: the
default `onError` and the `mutationFn`. -/
def mutationDefaults {α : Type} (dOnError dMutationFn : α) : String → Option α :=
  fun k =>
    if k = "onError" then some dOnError
    else if k = "mutationFn" then some dMutationFn
    else none

/-- Rest-destructuring `endpoint, method, ...options`: the named keys are
removed from the caller's object before the rest is spread. -/
def removeKeys {α : Type} (m : String → Option α) (ks : List String) : String → Option α :=
  fun k => if k ∈ ks then none else m k

/-- The configuration object `useServerMutation` passes to `useMutation`
(source lines 79-91): the system defaults appear first in the object literal
and the caller's remaining options are spread after them. -/
def useServerMutationConfig {α : Type} (dOnError dMutationFn : α)
    (caller : String → Option α) : String → Option α :=
  spreadMerge (mutationDefaults dOnError dMutationFn) (removeKeys caller ["endpoint", "method"])

/-- One render's observation of the query cache collaborator's reactive
state: `error` is `props.error` (`none` is `null`; a `some` pairs a reference
identity with the error object's value — React compares dependencies by
reference), `isError` is `props.isError`. -/
structure RenderObs where
  error : Option (Nat × JsVal)
  isError : Bool

/-- `Object.is`-comparison of the dependency array `[props.error,
props.isError, muteError]` between consecutive renders, with `muteError`
fixed for the query instance: reference identity for the error object, value
equality for the boolean. -/
def sameDeps (a b : RenderObs) : Bool :=
  (a.error.map Prod.fst == b.error.map Prod.fst) && (a.isError == b.isError)

/-- The toast messages one execution of the effect body emits (source lines
121-124): nothing when muted or not in an error state, otherwise the
classified message of `props.error?.response?.data` (nothing if the
classifier throws, since `toast.error` is then never reached). -/
def effectBody (mute : Bool) (o : RenderObs) : List String :=
  if !mute && o.isError then
    (handleError (optGet (optGet
      (match o.error with
       | none => JsVal.null
       | some e => e.2) "response") "data")).toList
  else []

/-- React `useEffect` after the first render: the effect body runs again
exactly after the renders whose dependencies differ from the previous
render's. -/
def runEffectsFrom (mute : Bool) (prev : RenderObs) : List RenderObs → List String
  | [] => []
  | o :: rest =>
      (if sameDeps o prev then [] else effectBody mute o) ++ runEffectsFrom mute o rest

/-- All notifier invocations of the query wrapper's effect over a render
sequence: the effect body runs after the first render unconditionally, then
per dependency change. -/
def runEffects (mute : Bool) : List RenderObs → List String
  | [] => []
  | o :: rest => effectBody mute o ++ runEffectsFrom mute o rest

/-- Number of distinct error occurrences after a render whose error identity
was `prev`: renders in an error state whose error reference differs from the
previous render's. -/
def occCountFrom (prev : Option Nat) : List RenderObs → Nat
  | [] => 0
  | o :: rest =>
      (if o.error.isSome && !(o.error.map Prod.fst == prev) then 1 else 0) +
        occCountFrom (o.error.map Prod.fst) rest

/-- Number of distinct error occurrences over a render sequence. -/
def occCount (l : List RenderObs) : Nat := occCountFrom none l

/-- The render's error body classifies without throwing (vacuous when there
is no error). -/
def classifies (o : RenderObs) : Bool :=
  match o.error with
  | some p => (handleError (optGet (optGet p.2 "response") "data")).isSome
  | none => true

/-- A concrete axios error value: its `response.data` is a rate-limit
envelope. -/
def sampleAxiosErr : JsVal :=
  JsVal.obj [("response", JsVal.obj [("data",
    JsVal.obj [("error", JsVal.str "Too many requests")])])]

/-- A concrete render sequence: an error observed across two renders (same
reference), a recovery, then a distinct error. -/
def sampleRenders : List RenderObs :=
  [⟨some (1, sampleAxiosErr), true⟩,
   ⟨some (1, sampleAxiosErr), true⟩,
   ⟨none, false⟩,
   ⟨some (2, sampleAxiosErr), true⟩]

theorem str_append_ne_empty (a b : String) (h : a ≠ "") : a ++ b ≠ "" := by
  intro hab
  apply h
  have hd := congrArg String.data hab
  rw [String.data_append] at hd
  have ha : a.data = [] := (List.append_eq_nil.mp hd).1
  cases a
  simp_all

theorem handleResponse_failure_data (body : JsVal) :
    (handleResponse body).error.isSome = true → (handleResponse body).data = JsVal.undefined := by
  unfold handleResponse
  split
  · intro _; rfl
  · split
    · intro h; simp at h
    · intro _; rfl

/-- C9: the Error Classifier is deterministic — `handleError` is a pure
function of its argument alone, so classifying the same raw payload twice
yields an identical result. -/
theorem handleError_deterministic (p : JsVal) : handleError p = handleError p := rfl

/-- C2: on every decoded response body, `handleResponse` returns exactly what
§4.1 of the spec prescribes: failure with the `error` string of a non-null
object whose `error` field is a string; otherwise success with the `data`
field of a non-null object that has one (whatever its value); otherwise
failure with the fixed payload `"No response from the server"`. -/
theorem handleResponse_eq_specDecode (res : JsVal) : handleResponse res = specDecode res := by
  cases res with
  | obj fs =>
      cases he : fs.lookup "error" with
      | none =>
          cases hd : fs.lookup "data" <;>
            simp [handleResponse, specDecode, isObjTypeof, truthy, hasProp, forceProp, getProp,
              he, hd, isStr, strOf]
      | some v =>
          cases v <;> cases hd : fs.lookup "data" <;>
            simp [handleResponse, specDecode, isObjTypeof, truthy, hasProp, forceProp, getProp,
              he, hd, isStr, strOf]
  | undefined => rfl
  | null => rfl
  | bool b => rfl
  | num n => rfl
  | str s => rfl
  | arr xs =>
      simp [handleResponse, specDecode, isObjTypeof, truthy, hasProp, forceProp, getProp, isStr]

/-- C10: decoder precedence — a non-null object carrying both a string-valued
`error` field and a `data` field decodes to failure with the error string;
the `error` check runs before the `data` check. -/
theorem handleResponse_error_wins (fs : List (String × JsVal)) (s : String)
    (h1 : fs.lookup "error" = some (JsVal.str s))
    (_h2 : (fs.lookup "data").isSome = true) :
    handleResponse (JsVal.obj fs) = ⟨JsVal.undefined, some s⟩ := by
  simp [handleResponse, isObjTypeof, truthy, hasProp, forceProp, getProp, h1, isStr, strOf]

/-- Witness for C10 at a body holding both fields. -/
theorem handleResponse_error_wins_witness :
    handleResponse (JsVal.obj [("error", JsVal.str "boom"), ("data", JsVal.num 1)]) =
      ⟨JsVal.undefined, some "boom"⟩ :=
  handleResponse_error_wins [("error", JsVal.str "boom"), ("data", JsVal.num 1)] "boom" rfl rfl

/-- C1 counterexample: a body the decoder classifies as failure on which
`buildQuery` nevertheless returns normally (with `undefined`) instead of
raising — the decoded failure payload `"boom"` is discarded. -/
theorem buildQuery_returns_normally_on_declared_error :
    (handleResponse (JsVal.obj [("error", JsVal.str "boom")])).error = some "boom" ∧
    buildQuery (Except.ok (JsVal.obj [("error", JsVal.str "boom")])) = Except.ok JsVal.undefined :=
  ⟨rfl, rfl⟩

/-- C1 amended: after a successful transport, `buildQuery` always returns
normally — with `undefined` when the decoder reports failure (the failure
payload is discarded, not raised) and with the decoded `data` component when
the decoder reports success; a transport failure propagates unchanged. -/
theorem buildQuery_amended (body : JsVal) :
    ((handleResponse body).error.isSome = true →
       buildQuery (Except.ok body) = Except.ok JsVal.undefined) ∧
    ((handleResponse body).error = none →
       buildQuery (Except.ok body) = Except.ok (handleResponse body).data) ∧
    (∀ e, buildQuery (Except.error e) = Except.error e) := by
  refine ⟨?_, ?_, ?_⟩
  · intro h
    have hd := handleResponse_failure_data body h
    simp [buildQuery, hd]
  · intro _
    rfl
  · intro e
    rfl

/-- Witness for C1 amended: a failing body, a succeeding body and a transport
error, each evaluated concretely. -/
theorem buildQuery_amended_witness :
    buildQuery (Except.ok (JsVal.obj [])) = Except.ok JsVal.undefined ∧
    buildQuery (Except.ok (JsVal.obj [("data", JsVal.num 5)])) =
      Except.ok (handleResponse (JsVal.obj [("data", JsVal.num 5)])).data ∧
    buildQuery (Except.error (JsVal.str "netdown")) = Except.error (JsVal.str "netdown") :=
  ⟨(buildQuery_amended (JsVal.obj [])).1 rfl,
   (buildQuery_amended (JsVal.obj [("data", JsVal.num 5)])).2.1 rfl,
   (buildQuery_amended (JsVal.obj [])).2.2 (JsVal.str "netdown")⟩

/-- C6: the Mutation Wrapper's default error handler reads
`error.request?.data` — the request object, which has no `data` property —
rather than the transport error's response body.  For a transport error whose
response body is the rate-limit envelope, the single notifier call therefore
carries `"Unknown error"`, while classifying the response body (as the spec
prescribes, and as the Query Wrapper does) yields the rate-limit message. -/
theorem mutation_onError_misreads_request_data :
    mutationDefaultOnError
      ⟨JsVal.obj [],
       JsVal.obj [("data", JsVal.obj [("error", JsVal.str "Too many requests")])]⟩ =
      ["Unknown error"] ∧
    handleError (JsVal.obj [("error", JsVal.str "Too many requests")]) =
      some tooManyRequestsMsg ∧
    "Unknown error" ≠ tooManyRequestsMsg :=
  ⟨rfl, rfl, by decide⟩

/-- C7: in the `useMutation` argument, caller options are spread after the
system defaults, so a caller-supplied `onError` occupies the slot — the
default notifier callback is replaced, not chained — and every other
caller-supplied option slot (anything but the destructured `endpoint` and
`method`) is passed through unchanged. -/
theorem mutation_caller_options_override {α : Type} (dOnError dMutationFn : α)
    (caller : String → Option α) (c : α) (h : caller "onError" = some c) :
    useServerMutationConfig dOnError dMutationFn caller "onError" = some c ∧
    ∀ k v, k ≠ "endpoint" → k ≠ "method" → caller k = some v →
      useServerMutationConfig dOnError dMutationFn caller k = some v := by
  constructor
  · simp [useServerMutationConfig, spreadMerge, removeKeys, h]
  · intro k v hk1 hk2 hkv
    simp [useServerMutationConfig, spreadMerge, removeKeys, hk1, hk2, hkv]

/-- Witness for C7: a concrete caller object with its own `onError` and one
extra option slot. -/
theorem mutation_caller_options_override_witness :
    useServerMutationConfig 1 2
      (fun k => if k = "onError" then some 5 else if k = "retry" then some 7 else none)
      "onError" = some 5 ∧
    useServerMutationConfig 1 2
      (fun k => if k = "onError" then some 5 else if k = "retry" then some 7 else none)
      "retry" = some 7 :=
  ⟨(mutation_caller_options_override 1 2 _ 5 rfl).1,
   (mutation_caller_options_override 1 2 _ 5 rfl).2 "retry" 7 (by decide) (by decide) rfl⟩

/-- C5: the first three classifier steps, in order — a string payload yields
`"Server Error"` concatenated with it (no separator); a non-string payload
whose `error` field is absent or empty yields `"Unknown error"`; a payload
whose extracted error string contains `"Too many requests"` yields the fixed
rate-limit message. -/
theorem handleError_first_steps :
    (∀ s, handleError (JsVal.str s) = some ("Server Error" ++ s)) ∧
    (∀ d, isStr d = false →
       (optGet d "error" = JsVal.undefined ∨ optGet d "error" = JsVal.str "") →
       handleError d = some "Unknown error") ∧
    (∀ d s, optGet d "error" = JsVal.str s →
       strIncludes s "Too many requests" = true →
       handleError d = some tooManyRequestsMsg) := by
  refine ⟨fun s => rfl, ?_, ?_⟩
  · intro d hstr hdisj
    cases d <;> simp [isStr] at hstr <;>
      rcases hdisj with h | h <;> simp [handleError, h, truthy]
  · intro d s herr hinc
    by_cases hs : s = ""
    · rw [hs] at hinc
      exact absurd hinc (by decide)
    · cases d <;> simp [optGet, forceProp, getProp] at herr
      all_goals
        simp [handleError, herr, optGet, forceProp, getProp, truthy, hs, errIncludesTooMany, hinc]

/-- Witness for C5 at a raw string, an empty object and a rate-limited
envelope. -/
theorem handleError_first_steps_witness :
    handleError (JsVal.str "X") = some ("Server Error" ++ "X") ∧
    handleError (JsVal.obj []) = some "Unknown error" ∧
    handleError (JsVal.obj [("error", JsVal.str "Too many requests from X")]) =
      some tooManyRequestsMsg :=
  ⟨handleError_first_steps.1 "X",
   handleError_first_steps.2.1 (JsVal.obj []) rfl (Or.inl rfl),
   handleError_first_steps.2.2 (JsVal.obj [("error", JsVal.str "Too many requests from X")])
     "Too many requests from X" rfl rfl⟩

theorem parseVal_not_undef (fuel : Nat) (cs : List Char) (v : JsVal) (rest : List Char)
    (h : parseVal fuel cs = some (v, rest)) : isUndefined v = false := by
  cases fuel with
  | zero => simp [parseVal] at h
  | succ f =>
      unfold parseVal at h
      split at h <;> try split at h
      all_goals simp only [Option.map_eq_some', Option.some.injEq, Prod.mk.injEq] at h
      all_goals first
        | (obtain ⟨h1, h2⟩ := h; subst h1; rfl)
        | (obtain ⟨a, ha, hv, hr⟩ := h; subst hv; rfl)

theorem jsonParse_not_undef (s : String) (g : JsVal) (h : jsonParse s = some g) :
    isUndefined g = false := by
  unfold jsonParse at h
  split at h
  · next v rest hv =>
      split at h
      · cases h
        exact parseVal_not_undef _ _ _ _ hv
      · cases h
  · cases h

/-- C3 counterexample: for the payload whose extracted error string is
`"null"` — which is non-empty, lacks `"Too many requests"`, and parses
successfully (to `null`) with no graphql-error list — the classifier returns
`"Error: null"` and not the `"Anilist error"` the claim prescribes for a
successful parse without such a list: the `graphqlErr.graphqlErrors` read on
the parsed `null` throws inside the `try` and lands in the `catch`. -/
theorem handleError_parse_null_counterexample :
    jsonParse "null" = some JsVal.null ∧
    handleError (JsVal.obj [("error", JsVal.str "null")]) = some "Error: null" ∧
    "Error: null" ≠ "Anilist error" := by
  have hj : jsonParse "null" = some JsVal.null := rfl
  refine ⟨hj, ?_, by decide⟩
  have hinc : strIncludes "null" "Too many requests" = false := rfl
  simp [handleError, optGet, forceProp, getProp, truthy, errIncludesTooMany, hinc, jsToString, hj]

/-- C3 amended: for a payload whose extracted error string `s` is non-empty
and lacks `"Too many requests"`: a parse failure yields `"Error: " ++ s`; a
parse result of `null` also yields `"Error: " ++ s` (the property read on
`null` throws into the `catch`); a non-null parse result passing the
graphql-error guard — a truthy `graphqlErrors` of positive length whose first
entry has a truthy `message` — yields `"Anilist error: "` plus the message;
any other non-null parse result yields `"Anilist error"`. -/
theorem handleError_parse_branches_amended (d : JsVal) (s : String)
    (h1 : optGet d "error" = JsVal.str s) (h2 : s ≠ "")
    (h3 : strIncludes s "Too many requests" = false) :
    (jsonParse s = none → handleError d = some ("Error: " ++ s)) ∧
    (jsonParse s = some JsVal.null → handleError d = some ("Error: " ++ s)) ∧
    (∀ g m, jsonParse s = some g → gqlMessage g = some m →
       handleError d = some ("Anilist error: " ++ jsToString m)) ∧
    (∀ g, jsonParse s = some g → isNull g = false → gqlMessage g = none →
       handleError d = some "Anilist error") := by
  cases d <;> simp [optGet, forceProp, getProp] at h1
  refine ⟨?_, ?_, ?_, ?_⟩
  · intro hp
    simp [handleError, optGet, forceProp, getProp, h1, truthy, h2, errIncludesTooMany, h3,
      jsToString, hp]
  · intro hp
    simp [handleError, optGet, forceProp, getProp, h1, truthy, h2, errIncludesTooMany, h3,
      jsToString, hp]
  · intro g m hp hg
    cases g <;>
      first
        | (simp [gqlMessage, forceProp, getProp, optGet, truthy] at hg; done)
        | simp [handleError, optGet, forceProp, getProp, h1, truthy, h2, errIncludesTooMany, h3,
            jsToString, hp, hg]
  · intro g hp hnull hg
    cases g <;>
      first
        | (simp [isNull] at hnull; done)
        | (exact absurd (jsonParse_not_undef s JsVal.undefined hp) (by simp [isUndefined]))
        | simp [handleError, optGet, forceProp, getProp, h1, truthy, h2, errIncludesTooMany, h3,
            jsToString, hp, hg]

/-- Witness for C3 amended: a non-JSON error string, a parsed graphql-error
envelope, and a parsed plain number. -/
theorem handleError_parse_branches_amended_witness :
    handleError (JsVal.obj [("error", JsVal.str "not json")]) =
      some ("Error: " ++ "not json") ∧
    handleError (JsVal.obj [("error",
        JsVal.str "\x7b\"graphqlErrors\":[\x7b\"message\":\"bad query\"\x7d]\x7d")]) =
      some ("Anilist error: " ++ jsToString (JsVal.str "bad query")) ∧
    handleError (JsVal.obj [("error", JsVal.str "42")]) = some "Anilist error" :=
  ⟨(handleError_parse_branches_amended
      (JsVal.obj [("error", JsVal.str "not json")]) "not json"
      rfl (by decide) rfl).1 rfl,
   (handleError_parse_branches_amended
      (JsVal.obj [("error",
        JsVal.str "\x7b\"graphqlErrors\":[\x7b\"message\":\"bad query\"\x7d]\x7d")])
      "\x7b\"graphqlErrors\":[\x7b\"message\":\"bad query\"\x7d]\x7d"
      rfl (by decide) rfl).2.2.1
     (JsVal.obj [("graphqlErrors", JsVal.arr [JsVal.obj [("message", JsVal.str "bad query")]])])
     (JsVal.str "bad query") rfl rfl,
   (handleError_parse_branches_amended
      (JsVal.obj [("error", JsVal.str "42")]) "42"
      rfl (by decide) rfl).2.2.2 (JsVal.num 42) rfl rfl rfl⟩

/-- C4 counterexample: the classifier is not total — an `error` field holding
the number `42` is truthy, so the falsy guard does not return, and the
`err.includes(..)` call is made on a number, which has no `includes` method:
the function throws a TypeError instead of returning a string. -/
theorem handleError_throws_on_numeric_error_field :
    handleError (JsVal.obj [("error", JsVal.num 42)]) = none := rfl

theorem handleError_ne_empty (d : JsVal) (m : String) (h : handleError d = some m) :
    m ≠ "" := by
  cases d <;> simp only [handleError] at h <;> repeat' split at h
  all_goals try (exact Option.noConfusion h)
  all_goals try (injection h with h)
  all_goals try subst h
  all_goals first
    | decide
    | exact str_append_ne_empty _ _ (by decide)

theorem handleError_none_iff (d : JsVal) :
    handleError d = none ↔
      isStr d = false ∧ truthy (optGet d "error") = true ∧
      isStr (optGet d "error") = false ∧ isArr (optGet d "error") = false := by
  cases d with
  | obj fs =>
      cases he : fs.lookup "error" with
      | none => simp [handleError, isStr, isArr, optGet, forceProp, getProp, he, truthy]
      | some v =>
          cases v <;>
            simp [handleError, isStr, isArr, optGet, forceProp, getProp, he, truthy,
              errIncludesTooMany] <;>
            (repeat' split) <;> simp_all
  | _ =>
      simp [handleError, isStr, isArr, optGet, forceProp, getProp, truthy]

/-- C4 amended: the classifier is total except for one input class — it
throws a TypeError precisely when the payload is not itself a string and its
`error` field is truthy but neither a string nor an array (so `includes` is
not a method of it); on every other input it terminates with a string, and
every string it ever returns is non-empty. -/
theorem handleError_totality_amended (d : JsVal) :
    (handleError d = none ↔
       isStr d = false ∧ truthy (optGet d "error") = true ∧
       isStr (optGet d "error") = false ∧ isArr (optGet d "error") = false) ∧
    (∀ m, handleError d = some m → m ≠ "") :=
  ⟨handleError_none_iff d, fun m h => handleError_ne_empty d m h⟩

/-- Witness for C4 amended: the numeric `error` field throws; an ordinary
input returns the (non-empty) string `"Unknown error"`. -/
theorem handleError_totality_amended_witness :
    handleError (JsVal.obj [("error", JsVal.num 42)]) = none ∧
    ("Unknown error" : String) ≠ "" :=
  ⟨(handleError_totality_amended (JsVal.obj [("error", JsVal.num 42)])).1.mpr
     ⟨rfl, rfl, rfl, rfl⟩,
   (handleError_totality_amended (JsVal.obj [])).2 "Unknown error" rfl⟩

theorem runEffectsFrom_muted (l : List RenderObs) : ∀ (prev : RenderObs),
    runEffectsFrom true prev l = [] := by
  induction l with
  | nil => intro prev; rfl
  | cons o rest ih =>
      intro prev
      simp [runEffectsFrom, effectBody, ih o]

theorem runEffectsFrom_len (l : List RenderObs) : ∀ (prev : RenderObs),
    prev.isError = prev.error.isSome →
    (∀ o ∈ l, o.isError = o.error.isSome) →
    (∀ o ∈ l, classifies o = true) →
    (runEffectsFrom false prev l).length = occCountFrom (prev.error.map Prod.fst) l := by
  induction l with
  | nil => intro prev _ _ _; rfl
  | cons o rest ih =>
      intro prev hprev hco hcl
      have hco_o : o.isError = o.error.isSome := hco o (by simp)
      have hcl_o : classifies o = true := hcl o (by simp)
      have ihr := ih o hco_o (fun x hx => hco x (by simp [hx])) (fun x hx => hcl x (by simp [hx]))
      simp only [runEffectsFrom, occCountFrom, List.length_append]
      rw [ihr]
      congr 1
      by_cases hid : o.error.map Prod.fst = prev.error.map Prod.fst
      · have hsome : o.error.isSome = prev.error.isSome := by
          have := congrArg Option.isSome hid
          simpa using this
        have hie : o.isError = prev.isError := by rw [hco_o, hprev, hsome]
        simp [sameDeps, hid, hie, hsome]
      · have hne : (o.error.map Prod.fst == prev.error.map Prod.fst) = false := by
          simpa using hid
        rw [if_neg (show ¬ sameDeps o prev = true by simp [sameDeps, hne])]
        cases ho : o.error with
        | none =>
            have hie : o.isError = false := by rw [hco_o, ho]; rfl
            simp [effectBody, hie, ho]
        | some p =>
            have hie : o.isError = true := by rw [hco_o, ho]; rfl
            have hcls : (handleError (optGet (optGet p.2 "response") "data")).isSome = true := by
              have hc := hcl_o
              simp only [classifies, ho] at hc
              exact hc
            obtain ⟨msg, hmsg⟩ := Option.isSome_iff_exists.mp hcls
            rw [ho] at hne
            simp only [Option.map_some'] at hne
            simp [effectBody, hie, ho, hmsg, hne]

/-- C8: over any render sequence, a muted query instance never invokes the
notifier; an otherwise-identical unmuted instance invokes it exactly once per
distinct observed error occurrence — once per change of the observed error
reference (the effect re-runs only when its dependencies change), not once
per render while an error persists.  The unmuted count is stated under the
cache collaborator's coherence (`isError` holds exactly when an error object
is present) and the assumption that each observed error body classifies
without throwing. -/
theorem query_notification_semantics (renders : List RenderObs)
    (hco : ∀ o ∈ renders, o.isError = o.error.isSome)
    (hcl : ∀ o ∈ renders, classifies o = true) :
    runEffects true renders = [] ∧
    (runEffects false renders).length = occCount renders := by
  constructor
  · cases renders with
    | nil => rfl
    | cons o rest => simp [runEffects, effectBody, runEffectsFrom_muted rest o]
  · cases renders with
    | nil => rfl
    | cons o rest =>
        have hco_o : o.isError = o.error.isSome := hco o (by simp)
        have hcl_o : classifies o = true := hcl o (by simp)
        have hrest := runEffectsFrom_len rest o hco_o
          (fun x hx => hco x (by simp [hx])) (fun x hx => hcl x (by simp [hx]))
        simp only [runEffects, occCount, occCountFrom, List.length_append]
        rw [hrest]
        congr 1
        cases ho : o.error with
        | none =>
            have hie : o.isError = false := by rw [hco_o, ho]; rfl
            simp [effectBody, hie, ho]
        | some p =>
            have hie : o.isError = true := by rw [hco_o, ho]; rfl
            have hcls : (handleError (optGet (optGet p.2 "response") "data")).isSome = true := by
              have hc := hcl_o
              simp only [classifies, ho] at hc
              exact hc
            obtain ⟨msg, hmsg⟩ := Option.isSome_iff_exists.mp hcls
            simp [effectBody, hie, ho, hmsg]

/-- Witness for C8: on the concrete four-render sequence, the muted instance
never notifies and the unmuted instance notifies exactly `occCount` times. -/
theorem query_notification_semantics_witness :
    runEffects true sampleRenders = [] ∧
    (runEffects false sampleRenders).length = occCount sampleRenders :=
  query_notification_semantics sampleRenders (by decide) (by decide)
